import Mathlib

/-!
Shallow embedding of the terminal-ownership (tty transfer) core of
fish-shell's `proc.rs` and of the `fg` builtin's job-selection logic
(`builtins/fg.rs`).

Kernel-facing syscalls (`tcgetpgrp`, `tcsetpgrp`, `getpgrp`, `waitpid`)
are modelled by an explicit environment that records their results; each
embedded operation additionally returns the trace of syscalls it issued,
so that claims about "no assignment syscall is issued" become statements
about the trace.  `assert!` and `Option::unwrap()` failures are modelled
as a `fatal` outcome carrying the panic message.
-/

namespace Fish

/-- The errno values distinguished by `TtyTransfer::try_transfer`. -/
inductive Errno where
  | EINVAL
  | EPERM
  | ENOTTY
  | EBADF
  | other
  deriving DecidableEq, Repr

/-- A syscall issued by the embedded code, with the argument that matters
to the spec (the pgid passed to `tcsetpgrp` / `waitpid`). -/
inductive Syscall where
  | getpgrp
  | tcgetpgrp
  | tcsetpgrp (pgid : Int)
  | waitpid (arg : Int)
  | redirect_tty_output
  deriving DecidableEq, Repr

/-- Model of `job_group::JobGroup` as used by `proc.rs`: the accessors
`wants_terminal()`, `get_pgid()` and the fields `job_id`, `tmodes`.
The termios snapshot is opaque to this core, so it is modelled as an
opaque `Nat`. -/
structure JobGroup where
  wants_terminal : Bool
  pgid : Option Int
  job_id : Int
  tmodes : Option Nat
  deriving DecidableEq, Repr

/-- Outcome of running a piece of code that can hit a fatal `assert!`
or `unwrap()` panic. -/
inductive RunResult (α : Type) where
  | ok (a : α)
  | fatal (msg : String)
  deriving DecidableEq, Repr

/-- `Option::unwrap()`. -/
def rust_unwrap {α : Type} : Option α → RunResult α
  | none => RunResult.fatal "called Option::unwrap on a None value"
  | some a => RunResult.ok a

/-- One kernel-visible outcome of an iteration of the retry loop in
`try_transfer` that began with a failing `tcsetpgrp` call:
the errno left by that call, the result of the re-query `tcgetpgrp`
(with its errno when negative), and the result of the
`waitpid(-pgid, WNOHANG)` probe were it to be issued.  A successful
`tcgetpgrp` leaves errno untouched, which the source relies on when it
re-reads errno after the re-query. -/
structure IterEvent where
  setErrno : Errno
  getRes : Int
  getErrno : Errno
  waitRes : Int
  deriving DecidableEq, Repr

/-- Outcome of one `tcsetpgrp(STDIN_FILENO, pgid)` call heading an
iteration of the retry loop: the `while` condition is `!= 0`. -/
inductive SetAttempt where
  | success
  | failure (ev : IterEvent)
  deriving DecidableEq, Repr

/-- Where control goes after the errno dispatch in the loop body:
an early `return b`, falling through with `pgroup_terminated` set,
or `continue`. -/
inductive BodyStep where
  | earlyReturn (b : Bool)
  | fellThrough (pgroup_terminated : Bool)
  | retry
  deriving DecidableEq, Repr

/-- The errno dispatch of the loop body of `try_transfer` (proc.rs
lines 154-194), reached when the re-query succeeded but the terminal
owner is still not `pgid`:
EINVAL means the process group no longer lives (`pgroup_terminated`);
EPERM probes liveness with `waitpid(-pgid, WNOHANG)`, a `-1` probe
result meaning the group is gone, anything else meaning retry;
ENOTTY returns false; any other errno logs and returns false. -/
def errnoDispatch (ev : IterEvent) : BodyStep :=
  if ev.setErrno = Errno.EINVAL then
    BodyStep.fellThrough true
  else if ev.setErrno = Errno.EPERM then
    (if ev.waitRes = -1 then BodyStep.fellThrough true else BodyStep.retry)
  else if ev.setErrno = Errno.ENOTTY then
    BodyStep.earlyReturn false
  else
    BodyStep.earlyReturn false

/-- The retry loop of `try_transfer` (proc.rs lines 117-211), run
against the list of outcomes of the successive `tcsetpgrp` calls.
Returns `none` when the modelled outcome list is exhausted while the
loop would continue; otherwise the returned Bool and the trace of
syscalls the loop issued.  After the body falls through with
`pgroup_terminated` set it returns false; the `break` that would make
the loop return true is dead, since every flow reaching the check has
set `pgroup_terminated` to true (noted in the source's port note). -/
def tryTransferLoop (pgid : Int) : List SetAttempt → Option (Bool × List Syscall)
  | [] => none
  | SetAttempt.success :: _ => some (true, [Syscall.tcsetpgrp pgid])
  | SetAttempt.failure ev :: rest =>
    let tr := [Syscall.tcsetpgrp pgid, Syscall.tcgetpgrp]
    if ev.getRes < 0 then
      match ev.getErrno with
      | Errno.ENOTTY => some (false, tr)
      | Errno.EBADF => some (false, tr ++ [Syscall.redirect_tty_output])
      | _ => some (false, tr)
    else if ev.getRes = pgid then
      some (true, tr)
    else
      let tr2 := if ev.setErrno = Errno.EPERM then tr ++ [Syscall.waitpid (-pgid)] else tr
      match errnoDispatch ev with
      | BodyStep.earlyReturn b => some (b, tr2)
      | BodyStep.fellThrough t => if t then some (false, tr2) else some (true, tr2)
      | BodyStep.retry =>
        match tryTransferLoop pgid rest with
        | some (b, more) => some (b, tr2 ++ more)
        | none => none

/-- Kernel state presented to one `try_transfer` call: the shell's own
process group (`getpgrp()`), the current terminal owner as reported by
the initial `tcgetpgrp(STDIN_FILENO)` (negative means the query
failed), and the outcomes of the successive assignment attempts. -/
structure KernelEnv where
  fish_pgrp : Int
  tty_owner : Int
  attempts : List SetAttempt
  deriving DecidableEq, Repr

/-- Result of `try_transfer`: the returned Bool plus the syscall trace,
a fatal assert/unwrap, or `pending` when the modelled assignment
outcomes ran out while the retry loop continued. -/
inductive TransferResult where
  | ok (transferred : Bool) (trace : List Syscall)
  | fatal (msg : String)
  | pending
  deriving DecidableEq, Repr

/-- `TtyTransfer::try_transfer` (proc.rs lines 67-213).  Steps:
refuse when the group does not want the terminal; unwrap the pgid and
assert it is non-negative and different from fish's own pgroup; query
the current owner (case 1: no tty, case 2: target already owns it,
case 3: an unrelated group owns it, case 4: fish owns it and the
assignment retry loop runs). -/
def try_transfer (env : KernelEnv) (jg : JobGroup) : TransferResult :=
  if !jg.wants_terminal then
    TransferResult.ok false []
  else
    match rust_unwrap jg.pgid with
    | RunResult.fatal m => TransferResult.fatal m
    | RunResult.ok pgid =>
      if pgid < 0 then
        TransferResult.fatal "Invalid pgid"
      else
        let fish_pgrp := env.fish_pgrp
        if pgid = fish_pgrp then
          TransferResult.fatal "Job should not have fish pgroup"
        else
          let tr0 := [Syscall.getpgrp, Syscall.tcgetpgrp]
          let current_owner := env.tty_owner
          if current_owner < 0 then
            TransferResult.ok false tr0
          else if current_owner = pgid then
            TransferResult.ok true tr0
          else if current_owner ≠ pgid ∧ current_owner ≠ fish_pgrp then
            TransferResult.ok false tr0
          else
            match tryTransferLoop pgid env.attempts with
            | some (b, tr) => TransferResult.ok b (tr0 ++ tr)
            | none => TransferResult.pending

/-- The scoped transfer handle `TtyTransfer`: the job group owning the
tty, or `none`. -/
structure TtyTransfer where
  owner : Option JobGroup
  deriving DecidableEq, Repr

/-- `TtyTransfer::new()` — starts idle. -/
def TtyTransfer.new : TtyTransfer := { owner := none }

/-- Result of `to_job_group`: the updated handle, or a fatal assert. -/
inductive BindResult where
  | ok (st : TtyTransfer)
  | fatal (msg : String)
  | pending
  deriving DecidableEq, Repr

/-- `TtyTransfer::to_job_group` (proc.rs lines 33-40): asserts
`self.owner.is_some()` with message "Terminal already transferred",
then binds the handle when `try_transfer` reports a transfer. -/
def to_job_group (self : TtyTransfer) (env : KernelEnv) (jg : JobGroup) : BindResult :=
  if !self.owner.isSome then
    BindResult.fatal "Terminal already transferred"
  else
    match try_transfer env jg with
    | TransferResult.ok true _ => BindResult.ok { owner := some jg }
    | TransferResult.ok false _ => BindResult.ok self
    | TransferResult.fatal m => BindResult.fatal m
    | TransferResult.pending => BindResult.pending

/-- Kernel state for `reclaim`: the shell's own pgroup and whether the
`tcsetpgrp(STDIN_FILENO, getpgrp())` call succeeds. -/
structure ReclaimEnv where
  fish_pgrp : Int
  tcsetpgrp_ok : Bool
  deriving DecidableEq, Repr

/-- `TtyTransfer::reclaim` (proc.rs lines 43-52): when bound, reassign
the terminal to fish's own pgroup, warning (non-fatally) when the
syscall fails; in all cases set `owner` to `None`.  Returns the new
handle, the syscall trace, and whether the failure warning was
logged. -/
def reclaim (self : TtyTransfer) (env : ReclaimEnv) : TtyTransfer × List Syscall × Bool :=
  if self.owner.isSome then
    ({ owner := none },
     [Syscall.getpgrp, Syscall.tcsetpgrp env.fish_pgrp],
     !env.tcsetpgrp_ok)
  else
    ({ owner := none }, [], false)

/-- `impl Drop for TtyTransfer` (proc.rs lines 217-221): asserts
`self.owner.is_none()` with message "Forgot to reclaim() the tty". -/
def drop_check (self : TtyTransfer) : RunResult Unit :=
  if !self.owner.isNone then
    RunResult.fatal "Forgot to reclaim() the tty"
  else
    RunResult.ok ()

/-- The job fields the `fg` builtin consults, as exposed by the job
table (an external collaborator of this core). -/
structure Job where
  is_stopped : Bool
  wants_job_control : Bool
  is_completed : Bool
  is_constructed : Bool
  deriving DecidableEq, Repr

/-- The predicate of the no-argument job search in `fg` (fg.rs lines
39-45): a present job that is stopped, wants job control and is not
completed; a missing slot never matches. -/
def fgSuitable (job : Option Job) : Bool :=
  match job with
  | some job => job.is_stopped && job.wants_job_control && !job.is_completed
  | none => false

/-- `Iterator::position`: index of the first element satisfying `p`. -/
def position {α : Type} (p : α → Bool) : List α → Option Nat
  | [] => none
  | x :: xs => if p x then some 0 else (position p xs).map (· + 1)

/-- Outcome of the no-argument branch of `fg` (fg.rs lines 35-54):
either the position of the selected job in the queue, or the
"There are no suitable jobs" diagnostic with `STATUS_CMD_ERROR`. -/
inductive FgNoArgResult where
  | selected (job_pos : Nat)
  | noSuitableJobs
  deriving DecidableEq, Repr

/-- The no-argument branch of `fg`: select the first job in the job
queue (the last constructed job) satisfying the suitability predicate,
else report "There are no suitable jobs". -/
def fgNoArg (jobs : List (Option Job)) : FgNoArgResult :=
  match position fgSuitable jobs with
  | some job_pos => FgNoArgResult.selected job_pos
  | none => FgNoArgResult.noSuitableJobs

/-- The condition of fg.rs line 91,
`job.is_some() || !job.unwrap().is_constructed() || !job.unwrap().is_completed()`,
with Rust's short-circuit `||` made explicit: each later disjunct
evaluates (and can panic) only when every earlier one was false. -/
def fgPidCondition (job : Option Job) : RunResult Bool :=
  if job.isSome then
    RunResult.ok true
  else
    match rust_unwrap job with
    | RunResult.fatal m => RunResult.fatal m
    | RunResult.ok j =>
      if !j.is_constructed then
        RunResult.ok true
      else
        match rust_unwrap job with
        | RunResult.fatal m => RunResult.fatal m
        | RunResult.ok j2 => RunResult.ok (!j2.is_completed)

/-- Outcome of the single-pid branch of `fg` (fg.rs lines 79-105). -/
inductive FgPidResult where
  | notANumber
  | noSuitableJob
  | noJobControl
  | proceed (j : Job)
  | fatal (msg : String)
  deriving DecidableEq, Repr

/-- The single-pid branch of `fg`: `pid` is the result of
`fish_wcstoi` (none when it failed, giving BUILTIN_ERR_NOT_NUMBER and
`STATUS_INVALID_ARGS`); the job is looked up with
`parser.job_get_from_pid`; the line-91 condition selects the
"No suitable job" diagnostic; otherwise a job without job control is
rejected and any other job is foregrounded. -/
def fgPidBranch (pid : Option Int) (job_get_from_pid : Int → Option Job) : FgPidResult :=
  match pid with
  | none => FgPidResult.notANumber
  | some p =>
    let job := job_get_from_pid p
    match fgPidCondition job with
    | RunResult.fatal m => FgPidResult.fatal m
    | RunResult.ok true => FgPidResult.noSuitableJob
    | RunResult.ok false =>
      match rust_unwrap job with
      | RunResult.fatal m => FgPidResult.fatal m
      | RunResult.ok j =>
        if !j.wants_job_control then FgPidResult.noJobControl
        else FgPidResult.proceed j

/-! Concrete sample inputs used by the closed evaluations below. -/

/-- A job group that wants the terminal, pgid 42. -/
def jgW : JobGroup := { wants_terminal := true, pgid := some 42, job_id := 7, tmodes := none }

/-- A background job group: does not want the terminal. -/
def bgJob : JobGroup := { wants_terminal := false, pgid := none, job_id := 2, tmodes := none }

/-- A job group whose pgid is negative, violating the pgid contract. -/
def jgNeg : JobGroup := { wants_terminal := true, pgid := some (-3), job_id := 3, tmodes := none }

/-- Kernel state where the target group (pgid 42) already owns the tty. -/
def envWon : KernelEnv := { fish_pgrp := 10, tty_owner := 42, attempts := [] }

/-- Kernel state with no tty attached, one assignment outcome modelled. -/
def envNoTty : KernelEnv := { fish_pgrp := 10, tty_owner := -1, attempts := [SetAttempt.success] }

/-- Loop event for a dead process group: EPERM from the assignment,
re-query still reports fish (10) as owner, waitpid probe returns -1. -/
def evDead : IterEvent :=
  { setErrno := Errno.EPERM, getRes := 10, getErrno := Errno.other, waitRes := -1 }

/-- Kernel state where fish owns the tty and the single assignment
attempt fails against a dead target process group. -/
def envDead : KernelEnv :=
  { fish_pgrp := 10, tty_owner := 10, attempts := [SetAttempt.failure evDead] }

/-- A stopped job under job control, not completed: suitable for fg. -/
def stoppedJob : Job :=
  { is_stopped := true, wants_job_control := true, is_completed := false, is_constructed := true }

/-- A running job: not suitable for the no-argument fg search. -/
def runningJob : Job :=
  { is_stopped := false, wants_job_control := true, is_completed := false, is_constructed := true }

/-- A two-slot job queue whose first suitable job sits at index 1. -/
def jobs0 : List (Option Job) := [some runningJob, some stoppedJob]

/-! The claims. -/

/-- Claim C1 (code bug): `to_job_group` asserts `self.owner.is_some()`
(proc.rs line 34), so calling it on an idle (never-bound) handle trips
the fatal assertion "Terminal already transferred", while calling it on
an already-bound handle (double-bind) passes the assertion and
proceeds — the exact inverse of the documented contract, and of the
assertion's own message. -/
theorem to_job_group_asserts_on_idle_handle :
    to_job_group TtyTransfer.new envWon jgW = BindResult.fatal "Terminal already transferred"
    ∧ to_job_group { owner := some jgW } envWon jgW = BindResult.ok { owner := some jgW } :=
  ⟨rfl, rfl⟩

/-- Claim C4: for a job group with `wants_terminal = false`,
`try_transfer` returns false immediately with an empty syscall trace —
it neither queries nor assigns terminal ownership. -/
theorem try_transfer_background_job (env : KernelEnv) (jg : JobGroup)
    (h : jg.wants_terminal = false) :
    try_transfer env jg = TransferResult.ok false [] := by
  unfold try_transfer
  simp [h]

/-- Witness for C4: a concrete background job. -/
theorem try_transfer_background_job_witness :
    try_transfer envWon bgJob = TransferResult.ok false [] :=
  try_transfer_background_job envWon bgJob rfl

/-- Claim C5: `reclaim` returns the handle to the unbound state in all
cases; when bound it issues exactly the reassignment of the terminal to
fish's own process group, warning non-fatally exactly when that syscall
fails; when idle it issues no syscall; and reclaiming an already
reclaimed handle is a no-op, so `reclaim` is idempotent. -/
theorem reclaim_unbinds_and_is_idempotent (s : TtyTransfer) (env : ReclaimEnv) :
    (reclaim s env).1 = { owner := none }
    ∧ (reclaim s env).2.1
        = (if s.owner.isSome then [Syscall.getpgrp, Syscall.tcsetpgrp env.fish_pgrp] else [])
    ∧ (reclaim s env).2.2 = (s.owner.isSome && !env.tcsetpgrp_ok)
    ∧ reclaim (reclaim s env).1 env = ({ owner := none }, [], false) := by
  unfold reclaim
  by_cases h : s.owner.isSome <;> simp [h]

/-- Claim C6: the `Drop` implementation asserts on a handle that is
still bound when its scope ends, and never asserts on an idle handle;
in particular a handle that went through `reclaim` is safe to drop. -/
theorem drop_asserts_iff_bound (jg : JobGroup) (s : TtyTransfer) (env : ReclaimEnv) :
    drop_check { owner := some jg } = RunResult.fatal "Forgot to reclaim() the tty"
    ∧ drop_check TtyTransfer.new = RunResult.ok ()
    ∧ drop_check (reclaim s env).1 = RunResult.ok () := by
  refine ⟨rfl, rfl, ?_⟩
  unfold reclaim
  by_cases h : s.owner.isSome <;> simp [h, drop_check]

/-- Claim C9 (code bug): the line-91 condition of fg.rs reports
"No suitable job" precisely when the pid lookup found a job — even a
constructed, not completed, job-controlled job that the builtin should
foreground — because `job.is_some()` short-circuits the condition to
true for every found job. -/
theorem fg_pid_rejects_qualifying_job :
    fgPidBranch (some 1234) (fun _ => some stoppedJob) = FgPidResult.noSuitableJob :=
  rfl

/-- Claim C10: in the single-pid branch, when the pid parses but the
job table lookup returns no job, the condition evaluates
`job.unwrap()` on `None` and panics instead of emitting the
"No suitable job" diagnostic. -/
theorem fg_pid_lookup_none_panics (p : Int) :
    fgPidBranch (some p) (fun _ => none)
      = FgPidResult.fatal "called Option::unwrap on a None value" :=
  rfl

/-- Claim C3: with the pgid contract satisfied, the initial ownership
query of `try_transfer` dispatches exactly as specified: a failed query
(no tty) yields false, an owner equal to the target yields true, an
unrelated owner yields false — each with a trace holding only the
`getpgrp` and `tcgetpgrp` queries and no assignment syscall — and only
when fish's own group owns the terminal is the `tcsetpgrp` assignment
issued (here modelled with a single successful attempt). -/
theorem try_transfer_initial_dispatch (env : KernelEnv) (jg : JobGroup) (p : Int)
    (h1 : jg.wants_terminal = true) (h2 : jg.pgid = some p)
    (h3 : 0 ≤ p) (h4 : p ≠ env.fish_pgrp)
    (h5 : env.attempts = [SetAttempt.success]) :
    try_transfer env jg =
      if env.tty_owner < 0 then
        TransferResult.ok false [Syscall.getpgrp, Syscall.tcgetpgrp]
      else if env.tty_owner = p then
        TransferResult.ok true [Syscall.getpgrp, Syscall.tcgetpgrp]
      else if env.tty_owner ≠ env.fish_pgrp then
        TransferResult.ok false [Syscall.getpgrp, Syscall.tcgetpgrp]
      else
        TransferResult.ok true
          [Syscall.getpgrp, Syscall.tcgetpgrp, Syscall.tcsetpgrp p] := by
  have hp : ¬p < 0 := not_lt.mpr h3
  unfold try_transfer
  rw [h2]
  by_cases ho1 : env.tty_owner < 0
  · simp [h1, rust_unwrap, hp, h4, ho1]
  · by_cases ho2 : env.tty_owner = p
    · simp [h1, rust_unwrap, hp, h4, ho1, ho2]
    · by_cases ho3 : env.tty_owner = env.fish_pgrp
      · simp [h1, rust_unwrap, hp, h4, ho1, ho2, ho3, h5, tryTransferLoop]
      · simp [h1, rust_unwrap, hp, h4, ho1, ho2, ho3]

/-- Witness for C3: no tty attached (query result -1), so the dispatch
selects the first case. -/
theorem try_transfer_initial_dispatch_witness :
    try_transfer envNoTty jgW =
      if envNoTty.tty_owner < 0 then
        TransferResult.ok false [Syscall.getpgrp, Syscall.tcgetpgrp]
      else if envNoTty.tty_owner = 42 then
        TransferResult.ok true [Syscall.getpgrp, Syscall.tcgetpgrp]
      else if envNoTty.tty_owner ≠ envNoTty.fish_pgrp then
        TransferResult.ok false [Syscall.getpgrp, Syscall.tcgetpgrp]
      else
        TransferResult.ok true
          [Syscall.getpgrp, Syscall.tcgetpgrp, Syscall.tcsetpgrp 42] :=
  try_transfer_initial_dispatch envNoTty jgW 42 rfl rfl (by decide) (by decide) rfl

/-- Claim C2: when fish owns the terminal and the assignment attempt
fails against a process group with no live members — either errno
EINVAL, or errno EPERM with the `waitpid(-pgid, WNOHANG)` liveness
probe reporting -1 (no such group) — `try_transfer` returns false
after that single retry-loop iteration, whatever outcomes would follow:
the trace shows exactly one `tcsetpgrp` assignment and the result does
not depend on `rest`. -/
theorem try_transfer_dead_pgroup_returns_false (env : KernelEnv) (jg : JobGroup)
    (p : Int) (ev : IterEvent) (rest : List SetAttempt)
    (h1 : jg.wants_terminal = true) (h2 : jg.pgid = some p)
    (h3 : 0 ≤ p) (h4 : p ≠ env.fish_pgrp)
    (h5 : 0 ≤ env.fish_pgrp) (h6 : env.tty_owner = env.fish_pgrp)
    (h7 : env.attempts = SetAttempt.failure ev :: rest)
    (h8 : 0 ≤ ev.getRes) (h9 : ev.getRes ≠ p)
    (h10 : ev.setErrno = Errno.EINVAL ∨ (ev.setErrno = Errno.EPERM ∧ ev.waitRes = -1)) :
    try_transfer env jg =
      TransferResult.ok false
        ([Syscall.getpgrp, Syscall.tcgetpgrp, Syscall.tcsetpgrp p, Syscall.tcgetpgrp]
          ++ (if ev.setErrno = Errno.EPERM then [Syscall.waitpid (-p)] else [])) := by
  have hp : ¬p < 0 := not_lt.mpr h3
  have ho1 : ¬env.tty_owner < 0 := by omega
  have ho2 : env.tty_owner ≠ p := by
    rw [h6]; exact fun hc => h4 hc.symm
  have hg : ¬ev.getRes < 0 := not_lt.mpr h8
  have hf1 : ¬env.fish_pgrp < 0 := not_lt.mpr h5
  have hf2 : env.fish_pgrp ≠ p := fun hc => h4 hc.symm
  unfold try_transfer
  rw [h2, h7]
  rcases h10 with hinval | ⟨heperm, hwait⟩
  · have hne : ev.setErrno ≠ Errno.EPERM := by rw [hinval]; decide
    simp [h1, rust_unwrap, hp, h4, ho1, ho2, h6, hf1, hf2, tryTransferLoop, hg, h9,
      errnoDispatch, hinval, hne]
  · have hne : ev.setErrno ≠ Errno.EINVAL := by rw [heperm]; decide
    simp [h1, rust_unwrap, hp, h4, ho1, ho2, h6, hf1, hf2, tryTransferLoop, hg, h9,
      errnoDispatch, heperm, hne, hwait]

/-- Witness for C2: fish (pgroup 10) owns the tty, the assignment to
pgid 42 fails with EPERM, and the probe reports the group dead. -/
theorem try_transfer_dead_pgroup_returns_false_witness :
    try_transfer envDead jgW =
      TransferResult.ok false
        ([Syscall.getpgrp, Syscall.tcgetpgrp, Syscall.tcsetpgrp 42, Syscall.tcgetpgrp]
          ++ (if evDead.setErrno = Errno.EPERM then [Syscall.waitpid (-42)] else [])) :=
  try_transfer_dead_pgroup_returns_false envDead jgW 42 evDead [] rfl rfl
    (by decide) (by decide) (by decide) rfl rfl (by decide) (by decide)
    (Or.inr ⟨rfl, rfl⟩)

/-- Claim C7: for a target that wants the terminal, a missing pgid, a
negative pgid, or a pgid equal to fish's own process group each makes
`try_transfer` die on the corresponding fatal unwrap/assert — it never
proceeds silently and never returns false. -/
theorem try_transfer_contract_violations (env : KernelEnv) (jg : JobGroup)
    (h1 : jg.wants_terminal = true)
    (h2 : jg.pgid = none ∨ ∃ p, jg.pgid = some p ∧ (p < 0 ∨ p = env.fish_pgrp)) :
    try_transfer env jg =
      TransferResult.fatal
        (match jg.pgid with
         | none => "called Option::unwrap on a None value"
         | some p => if p < 0 then "Invalid pgid" else "Job should not have fish pgroup") := by
  rcases h2 with h | ⟨p, hp, hcase⟩
  · simp [try_transfer, h1, h, rust_unwrap]
  · by_cases hneg : p < 0
    · simp [try_transfer, h1, hp, rust_unwrap, hneg]
    · have hfish : p = env.fish_pgrp := hcase.resolve_left hneg
      simp [try_transfer, h1, hp, rust_unwrap, hneg, hfish, apply_ite]

/-- Witness for C7: a negative pgid dies on the "Invalid pgid" assert. -/
theorem try_transfer_contract_violations_witness :
    try_transfer envNoTty jgNeg = TransferResult.fatal "Invalid pgid" :=
  (try_transfer_contract_violations envNoTty jgNeg rfl
    (Or.inr ⟨-3, rfl, Or.inl (by decide)⟩)).trans (by decide)

/-- `position` returns `none` exactly when no element satisfies the
predicate. -/
theorem position_eq_none {α : Type} (p : α → Bool) (l : List α) :
    position p l = none ↔ ∀ x ∈ l, p x = false := by
  induction l with
  | nil => simp [position]
  | cons x xs ih =>
    by_cases h : p x
    · simp [position, h]
    · have hx : position p (x :: xs) = (position p xs).map (· + 1) := by
        simp only [position]; rw [if_neg h]
      rw [hx, Option.map_eq_none', ih]
      constructor
      · intro hall y hy
        rcases List.mem_cons.mp hy with hy | hy
        · rw [hy]; exact Bool.eq_false_iff.mpr h
        · exact hall y hy
      · intro hall y hy
        exact hall y (List.mem_cons_of_mem x hy)

/-- `position` returns the index of the first element satisfying the
predicate: the index is in range, the element there satisfies it, and
every earlier element fails it. -/
theorem position_eq_some {α : Type} (p : α → Bool) (d : α) :
    ∀ (l : List α) (i : Nat), position p l = some i →
      i < l.length ∧ p (l.getD i d) = true ∧ ∀ x ∈ l.take i, p x = false := by
  intro l
  induction l with
  | nil => intro i hi; simp [position] at hi
  | cons x xs ih =>
    intro i hi
    by_cases h : p x
    · have hx : position p (x :: xs) = some 0 := by
        simp only [position]; rw [if_pos h]
      rw [hx] at hi
      cases hi
      simp [h]
    · have hx : position p (x :: xs) = (position p xs).map (· + 1) := by
        simp only [position]; rw [if_neg h]
      rw [hx, Option.map_eq_some'] at hi
      obtain ⟨j, hj, rfl⟩ := hi
      obtain ⟨hlen, hat, hbefore⟩ := ih j hj
      refine ⟨by simpa using hlen, by simpa using hat, ?_⟩
      intro y hy
      simp only [List.take_succ_cons, List.mem_cons] at hy
      rcases hy with hy | hy
      · rw [hy]; exact Bool.eq_false_iff.mpr h
      · exact hbefore y hy

/-- Claim C8: the no-argument `fg` reports "There are no suitable
jobs" exactly when no job in the queue is stopped, under job control
and not completed; and when it selects a position, that position holds
the first job in the queue satisfying all three conditions (every
earlier queue slot fails the predicate). -/
theorem fg_noarg_selects_first_suitable (jobs : List (Option Job)) :
    (fgNoArg jobs = FgNoArgResult.noSuitableJobs ↔ ∀ j ∈ jobs, fgSuitable j = false)
    ∧ ∀ pos, fgNoArg jobs = FgNoArgResult.selected pos →
        pos < jobs.length
        ∧ fgSuitable (jobs.getD pos none) = true
        ∧ ∀ j ∈ jobs.take pos, fgSuitable j = false := by
  constructor
  · unfold fgNoArg
    cases h : position fgSuitable jobs with
    | none => simpa using (position_eq_none fgSuitable jobs).mp h
    | some i =>
      simp only [reduceCtorEq, false_iff]
      intro hall
      rw [(position_eq_none fgSuitable jobs).mpr hall] at h
      exact Option.noConfusion h
  · intro pos hpos
    unfold fgNoArg at hpos
    cases h : position fgSuitable jobs with
    | none => rw [h] at hpos; exact FgNoArgResult.noConfusion hpos
    | some i =>
      rw [h] at hpos
      cases hpos
      exact position_eq_some fgSuitable none jobs pos h

/-- Witness for C8: in a queue with a running job at slot 0 and a
stopped job at slot 1, `fg` selects slot 1, which holds a suitable
job. -/
theorem fg_noarg_selects_first_suitable_witness :
    1 < jobs0.length ∧ fgSuitable (jobs0.getD 1 none) = true :=
  ⟨((fg_noarg_selects_first_suitable jobs0).2 1 rfl).1,
   ((fg_noarg_selects_first_suitable jobs0).2 1 rfl).2.1⟩

end Fish
